import Mathlib

/-!
Verification of the combat engine of a turn-based battle simulator.

The definitions below are a shallow embedding of the JavaScript sources
`src/js/combat.js` (type chart, effectiveness, damage, attack execution,
turn order) and `src/js/battle.js` (battle sequencing loop, faint handling,
command handlers).  JavaScript numbers are modelled by `ℤ` (health, damage)
and `ℚ` (multipliers and random factors); `Math.round` is `⌊x + 1/2⌋`;
the falsy-defaulting idiom `x || 50` is `jsOr`; random draws become explicit
parameters.
-/

namespace Stresst

/-- A combatant record as used by the combat engine.  `attack`, `strength`
and `types` are `Option`s because the engine defaults them when absent;
a *present* numeric field still goes through JavaScript falsy defaulting
(`jsOr`). -/
structure Pokemon where
  name : String
  hp : ℤ
  maxHp : ℤ
  attack : Option ℤ
  strength : Option ℤ
  types : Option (List String)
deriving Repr, DecidableEq

/-- JavaScript `v || d` for an optional numeric field: an absent field or a
present value `0` (falsy) gives the default `d`; any other value is kept. -/
def jsOr (v : Option ℤ) (d : ℤ) : ℤ :=
  match v with
  | none => d
  | some 0 => d
  | some n => n

/-- JavaScript `Math.round` on an exact rational: round half toward
positive infinity. -/
def jround (q : ℚ) : ℤ := ⌊q + 1 / 2⌋

/-- The static type-effectiveness chart `TYPE_EFFECTIVENESS` of
`combat.js`: the nested object literal `{ attackingType: { defendingType:
multiplier } }`, modelled as an association list of rows. -/
def TYPE_EFFECTIVENESS : List (String × List (String × ℚ)) :=
  [("normal", [("rock", 1/2), ("ghost", 0), ("steel", 1/2)]),
   ("fire", [("fire", 1/2), ("water", 1/2), ("grass", 2), ("ice", 2),
     ("bug", 2), ("rock", 1/2), ("dragon", 1/2), ("steel", 2)]),
   ("water", [("fire", 2), ("water", 1/2), ("grass", 1/2), ("ground", 2),
     ("rock", 2), ("dragon", 1/2)]),
   ("electric", [("water", 2), ("electric", 1/2), ("grass", 1/2),
     ("ground", 0), ("flying", 2), ("dragon", 1/2)]),
   ("grass", [("fire", 1/2), ("water", 2), ("grass", 1/2), ("poison", 1/2),
     ("ground", 2), ("flying", 1/2), ("bug", 1/2), ("rock", 2),
     ("dragon", 1/2), ("steel", 1/2)]),
   ("ice", [("fire", 1/2), ("water", 1/2), ("grass", 2), ("ice", 1/2),
     ("ground", 2), ("flying", 2), ("dragon", 2), ("steel", 1/2)]),
   ("fighting", [("normal", 2), ("ice", 2), ("poison", 1/2), ("flying", 1/2),
     ("psychic", 1/2), ("bug", 1/2), ("rock", 2), ("ghost", 0), ("dark", 2),
     ("steel", 2), ("fairy", 1/2)]),
   ("poison", [("grass", 2), ("poison", 1/2), ("ground", 1/2), ("rock", 1/2),
     ("ghost", 1/2), ("steel", 0), ("fairy", 2)]),
   ("ground", [("fire", 2), ("electric", 2), ("grass", 1/2), ("poison", 2),
     ("flying", 0), ("bug", 1/2), ("rock", 2), ("steel", 2)]),
   ("flying", [("electric", 1/2), ("grass", 2), ("fighting", 2), ("bug", 2),
     ("rock", 1/2), ("steel", 1/2)]),
   ("psychic", [("fighting", 2), ("poison", 2), ("psychic", 1/2),
     ("dark", 0), ("steel", 1/2)]),
   ("bug", [("fire", 1/2), ("grass", 2), ("fighting", 1/2), ("poison", 1/2),
     ("flying", 1/2), ("psychic", 2), ("ghost", 1/2), ("dark", 2),
     ("steel", 1/2), ("fairy", 1/2)]),
   ("rock", [("fire", 2), ("ice", 2), ("fighting", 1/2), ("ground", 1/2),
     ("flying", 2), ("bug", 2), ("steel", 1/2)]),
   ("ghost", [("normal", 0), ("psychic", 2), ("ghost", 2), ("dark", 1/2)]),
   ("dragon", [("dragon", 2), ("steel", 1/2), ("fairy", 0)]),
   ("dark", [("fighting", 1/2), ("psychic", 2), ("ghost", 2), ("dark", 1/2),
     ("fairy", 1/2)]),
   ("steel", [("fire", 1/2), ("water", 1/2), ("electric", 1/2), ("ice", 2),
     ("rock", 2), ("steel", 1/2), ("fairy", 2)]),
   ("fairy", [("fire", 1/2), ("fighting", 2), ("poison", 1/2),
     ("dragon", 2), ("dark", 2), ("steel", 1/2)])]

/-- The row lookup `TYPE_EFFECTIVENESS[attackType] || {}` of
`getTypeEffectiveness`: a missing row yields the empty mapping. -/
def effRow (attackType : String) : List (String × ℚ) :=
  (TYPE_EFFECTIVENESS.lookup attackType).getD []

/-- `getTypeEffectiveness` of `combat.js`: take the attacker's first type
(an absent or falsy first entry returns 1), then for every defender type
multiply the running product by the chart entry when it is defined
(`effectiveness[defType] !== undefined`). -/
def getTypeEffectiveness (attackerTypes defenderTypes : List String) : ℚ :=
  match attackerTypes with
  | [] => 1
  | attackType :: _ =>
    if attackType = "" then 1
    else
      defenderTypes.foldl
        (fun multiplier defType =>
          match (effRow attackType).lookup defType with
          | some v => multiplier * v
          | none => multiplier) 1

/-- `getEffectivenessDescription` of `combat.js` (message text modulo
punctuation). -/
def getEffectivenessDescription (typeMultiplier : ℚ) : String :=
  if typeMultiplier = 0 then "It has no effect..."
  else if 2 ≤ typeMultiplier then "It is super effective!"
  else if typeMultiplier < 1 ∧ 0 < typeMultiplier then "It is not very effective..."
  else ""

/-- The local `strengthMultiplier` computation of `calculateDamage`:
`0.8 + (strength / 100) * 0.7`. -/
def strengthMultiplier (s : ℤ) : ℚ := 8 / 10 + ((s : ℚ) / 100) * (7 / 10)

/-- The record returned by `calculateDamage`. -/
structure DamageResult where
  damage : ℤ
  effectivenessMsg : String
  typeMultiplier : ℚ
  isCritical : Bool
  strengthMultiplier : ℚ
  randomFactor : ℚ
deriving Repr, DecidableEq

/-- `calculateDamage` of `combat.js`.  The two random draws
(`randomFactor ∈ [0.85, 1.15)` and the 10% critical roll) are passed in
explicitly. -/
def calculateDamage (attacker defender : Pokemon) (randomFactor : ℚ)
    (isCritical : Bool) : DamageResult :=
  let baseAttack := jsOr attacker.attack 50
  let sMult := strengthMultiplier (jsOr attacker.strength 50)
  let attackerTypes := attacker.types.getD ["normal"]
  let defenderTypes := defender.types.getD ["normal"]
  let typeMultiplier := getTypeEffectiveness attackerTypes defenderTypes
  let critMultiplier : ℚ := if isCritical then 3 / 2 else 1
  let raw := jround ((baseAttack : ℚ) * (4 / 10) * sMult * typeMultiplier *
    randomFactor * critMultiplier)
  let damage := if typeMultiplier = 0 then 0 else max 1 raw
  let msg := getEffectivenessDescription typeMultiplier
  let effectivenessMsg :=
    if isCritical ∧ 0 < damage then "Critical hit! " ++ msg else msg
  { damage := damage, effectivenessMsg := effectivenessMsg,
    typeMultiplier := typeMultiplier, isCritical := isCritical,
    strengthMultiplier := sMult, randomFactor := randomFactor }

/-- The record returned by `executeAttack`. -/
structure AttackOutcome where
  attacker : String
  defender : String
  damage : ℤ
  effectivenessMsg : String
  defenderFainted : Bool
  isPlayerAttack : Bool
  isCritical : Bool
  typeMultiplier : ℚ
deriving Repr, DecidableEq

/-- `executeAttack` of `combat.js`: compute damage, clamp the defender's
health at 0, and report the outcome.  The mutation of `defender.hp` is
modelled by returning the updated defender next to the outcome record. -/
def executeAttack (attacker defender : Pokemon) (isPlayerAttack : Bool)
    (randomFactor : ℚ) (isCritical : Bool) : Pokemon × AttackOutcome :=
  let result := calculateDamage attacker defender randomFactor isCritical
  let defenderAfter := { defender with hp := max 0 (defender.hp - result.damage) }
  (defenderAfter,
    { attacker := attacker.name, defender := defender.name,
      damage := result.damage, effectivenessMsg := result.effectivenessMsg,
      defenderFainted := decide (defenderAfter.hp ≤ 0),
      isPlayerAttack := isPlayerAttack, isCritical := result.isCritical,
      typeMultiplier := result.typeMultiplier })

/-- The speed value computed inside `determineTurnOrder`:
`(strength || 50) + Math.random() * 20`, with the draw `r` explicit. -/
def speed (p : Pokemon) (r : ℚ) : ℚ := ((jsOr p.strength 50 : ℤ) : ℚ) + r

/-- `determineTurnOrder` of `combat.js`: true when the first combatant's
jittered speed is at least the second's. -/
def determineTurnOrder (pokemon1 pokemon2 : Pokemon) (r1 r2 : ℚ) : Bool :=
  decide (speed pokemon2 r2 ≤ speed pokemon1 r1)

/-- The random draws consumed by one round of `runBattleSequence`:
the two turn-order jitters and, for each of the (at most two) attacks of
the round, a damage random factor and a critical-hit roll. -/
structure RoundRand where
  orderR1 : ℚ
  orderR2 : ℚ
  firstRand : ℚ
  firstCrit : Bool
  secondRand : ℚ
  secondCrit : Bool
deriving Repr, DecidableEq

/-- `maxTurns` in `runBattleSequence` (`battle.js`): the hard round limit. -/
def MAX_ROUNDS : ℕ := 50

/-- Result of the round loop of `runBattleSequence`: final player and
enemy combatants and the number of rounds executed (`turnCount`). -/
structure LoopResult where
  player : Pokemon
  enemy : Pokemon
  rounds : ℕ
deriving Repr, DecidableEq

/-- The `while` loop of `runBattleSequence` (`battle.js`), structurally
recursing on the remaining fuel `maxTurns - turnCount`.  Each iteration
resolves turn order, lets the first party attack and breaks out of the
loop when that attack faints the other party; otherwise the second party
attacks and the loop condition is re-checked. -/
def battleLoop (rng : ℕ → RoundRand) :
    ℕ → Pokemon → Pokemon → ℕ → LoopResult
  | 0, p, e, t => ⟨p, e, t⟩
  | fuel + 1, p, e, t =>
    if 0 < p.hp ∧ 0 < e.hp then
      let rr := rng t
      if determineTurnOrder p e rr.orderR1 rr.orderR2 then
        let e1 := (executeAttack p e true rr.firstRand rr.firstCrit).1
        if e1.hp ≤ 0 then ⟨p, e1, t + 1⟩
        else
          let p1 := (executeAttack e1 p false rr.secondRand rr.secondCrit).1
          battleLoop rng fuel p1 e1 (t + 1)
      else
        let p1 := (executeAttack e p false rr.firstRand rr.firstCrit).1
        if p1.hp ≤ 0 then ⟨p1, e, t + 1⟩
        else
          let e1 := (executeAttack p1 e true rr.secondRand rr.secondCrit).1
          battleLoop rng fuel p1 e1 (t + 1)
    else ⟨p, e, t⟩

/-- Terminal outcome of a battle sequence.  `won` / `activeDefeated`
correspond to the post-loop dispatch to `handleBattleWin` /
`handlePokemonFainted`; `stalemate` is the remaining case, where the loop
stopped at the round limit with both sides alive and neither handler runs. -/
inductive BattleOutcome where
  | won
  | activeDefeated
  | stalemate
deriving Repr, DecidableEq

/-- Full result of `runBattleSequence`. -/
structure SequenceResult where
  player : Pokemon
  enemy : Pokemon
  rounds : ℕ
  outcome : BattleOutcome
deriving Repr, DecidableEq

/-- `runBattleSequence` of `battle.js`: run the round loop from
`turnCount = 0` with the `maxTurns = 50` safety limit, then classify the
terminal state exactly as the post-loop `if/else if` does. -/
def runBattleSequence (p e : Pokemon) (rng : ℕ → RoundRand) : SequenceResult :=
  let r := battleLoop rng MAX_ROUNDS p e 0
  let outcome :=
    if r.enemy.hp ≤ 0 then BattleOutcome.won
    else if r.player.hp ≤ 0 then BattleOutcome.activeDefeated
    else BattleOutcome.stalemate
  ⟨r.player, r.enemy, r.rounds, outcome⟩

/-- The ambient `gameState` object of `battle.js`, restricted to the
fields the combat engine reads and writes. -/
structure GameState where
  round : ℕ
  wins : ℕ
  isLoading : Bool
  isBattling : Bool
  playerTeam : List Pokemon
  activePlayerPokemon : ℕ
  enemyPokemon : Pokemon
deriving Repr, DecidableEq

/-- `handlePokemonFainted` of `battle.js`.  The returned `Bool` is true
when total defeat is signalled (`recordBattleResult(false)` and
`resetBattleProgress()` fire).  With a survivor at index `i` the active
slot switches to `i`; with none, the win and round counters reset to
their initial values 0 and 1. -/
def handlePokemonFainted (st : GameState) : GameState × Bool :=
  match st.playerTeam.findIdx? (fun p => decide (0 < p.hp)) with
  | some i => ({ st with activePlayerPokemon := i }, false)
  | none => ({ st with wins := 0, round := 1 }, true)

/-- The immediate response of `handleAttack` (`battle.js`) to an attack
command: silently ignored (loading or already battling), refused with a
message (active or whole team fainted), a new battle sequence started, or
a JavaScript runtime error (active index outside the team array). -/
inductive AttackAction where
  | ignored
  | activeFaintedMsg
  | allFaintedMsg
  | startSequence
  | runtimeError
deriving Repr, DecidableEq

/-- `handleAttack` of `battle.js`.  The function itself mutates no game
state; it either rejects the command or starts `runBattleSequence`, so it
is modelled as returning the unchanged state next to the chosen action. -/
def handleAttack (st : GameState) : GameState × AttackAction :=
  if st.isLoading ∨ st.isBattling then (st, AttackAction.ignored)
  else
    match st.playerTeam[st.activePlayerPokemon]? with
    | none => (st, AttackAction.runtimeError)
    | some playerPokemon =>
      if playerPokemon.hp ≤ 0 then (st, AttackAction.activeFaintedMsg)
      else if st.playerTeam.any (fun p => decide (0 < p.hp)) then
        (st, AttackAction.startSequence)
      else (st, AttackAction.allFaintedMsg)

/-- `handlePokemonSelect` of `battle.js`: switching is refused while a
sequence is running, for a fainted combatant, and for the slot already
active; otherwise the active index becomes `slot`. -/
def handlePokemonSelect (st : GameState) (slot : ℕ) : GameState :=
  if st.isBattling then st
  else
    match st.playerTeam[slot]? with
    | none => st
    | some pokemon =>
      if pokemon.hp ≤ 0 then st
      else if slot = st.activePlayerPokemon then st
      else { st with activePlayerPokemon := slot }

/-! ## Helper lemmas -/

/-- Folding the multiply-when-defined step of `getTypeEffectiveness` over
a defender type list computes the product of the looked-up multipliers,
with 1 for absent entries. -/
lemma foldl_lookup_prod (row : List (String × ℚ)) :
    ∀ (defs : List String) (a : ℚ),
      defs.foldl
        (fun multiplier defType =>
          match row.lookup defType with
          | some v => multiplier * v
          | none => multiplier) a =
      a * (defs.map (fun d => (row.lookup d).getD 1)).prod := by
  intro defs
  induction defs with
  | nil => intro a; simp
  | cons d ds ih =>
    intro a
    simp only [List.foldl_cons, List.map_cons, List.prod_cons, ih]
    cases h : row.lookup d with
    | none => simp [h]
    | some v => simp [h]; ring

/-! ## Claims -/

/-- C3: for a non-empty attacker type sequence, `getTypeEffectiveness`
uses only the first (primary) attacker type and returns the product, over
every defender type in order, of the chart value with default 1 for
absent entries or a missing row; with zero defender types it returns 1;
fire vs grass+bug gives 4 and electric vs ground gives 0. -/
theorem getTypeEffectiveness_spec :
    (∀ (atk : String) (rest defenderTypes : List String), atk ≠ "" →
      getTypeEffectiveness (atk :: rest) defenderTypes =
        (defenderTypes.map (fun d => ((effRow atk).lookup d).getD 1)).prod) ∧
    (∀ l : List String, getTypeEffectiveness l [] = 1) ∧
    getTypeEffectiveness ["fire"] ["grass", "bug"] = 4 ∧
    getTypeEffectiveness ["electric"] ["ground"] = 0 := by
  refine ⟨?_, ?_, ?_, ?_⟩
  · intro atk rest defenderTypes hne
    simp only [getTypeEffectiveness, if_neg hne, foldl_lookup_prod, one_mul]
  · intro l
    cases l with
    | nil => rfl
    | cons atk rest => simp [getTypeEffectiveness]
  · simp [getTypeEffectiveness, effRow, TYPE_EFFECTIVENESS, List.lookup]
    norm_num
  · simp [getTypeEffectiveness, effRow, TYPE_EFFECTIVENESS, List.lookup]

/-- Witness for C3: the product formula applied to the dual-typed
attacker `["water", "ice"]`, whose secondary type is ignored. -/
theorem getTypeEffectiveness_spec_witness :
    getTypeEffectiveness ["water", "ice"] ["fire", "rock"] =
      ((["fire", "rock"] : List String).map
        (fun d => ((effRow "water").lookup d).getD 1)).prod :=
  getTypeEffectiveness_spec.1 "water" ["ice"] ["fire", "rock"] (by decide)

/-- C2: `calculateDamage` returns damage exactly 0 when the
type-effectiveness multiplier is 0, and damage at least 1 in every other
case. -/
theorem calculateDamage_immune_or_min_one (attacker defender : Pokemon)
    (randomFactor : ℚ) (isCritical : Bool) :
    ((calculateDamage attacker defender randomFactor isCritical).typeMultiplier = 0 →
      (calculateDamage attacker defender randomFactor isCritical).damage = 0) ∧
    ((calculateDamage attacker defender randomFactor isCritical).typeMultiplier ≠ 0 →
      1 ≤ (calculateDamage attacker defender randomFactor isCritical).damage) := by
  simp only [calculateDamage]
  constructor
  · intro h
    simp [h]
  · intro h
    simp only [if_neg h, le_max_left]

/-- Witness for C2: an electric attacker against a ground defender is
immune (damage 0), while a normal-on-normal hit deals at least 1. -/
theorem calculateDamage_immune_or_min_one_witness :
    (calculateDamage ⟨"Pika", 100, 100, none, none, some ["electric"]⟩
      ⟨"Dig", 100, 100, none, none, some ["ground"]⟩ 1 false).damage = 0 ∧
    1 ≤ (calculateDamage ⟨"A", 100, 100, none, none, none⟩
      ⟨"B", 100, 100, none, none, none⟩ 1 false).damage := by
  constructor
  · exact (calculateDamage_immune_or_min_one
      ⟨"Pika", 100, 100, none, none, some ["electric"]⟩
      ⟨"Dig", 100, 100, none, none, some ["ground"]⟩ 1 false).1
      (by simp [calculateDamage, getTypeEffectiveness, effRow,
        TYPE_EFFECTIVENESS, List.lookup])
  · exact (calculateDamage_immune_or_min_one
      ⟨"A", 100, 100, none, none, none⟩
      ⟨"B", 100, 100, none, none, none⟩ 1 false).2
      (by simp [calculateDamage, getTypeEffectiveness, effRow,
        TYPE_EFFECTIVENESS, List.lookup])

/-- C4: `executeAttack` sets the defender's health to
`max 0 (previous health - damage)`, so it is never negative; the outcome's
fainted flag holds exactly when the post-attack health is 0; every other
defender field is unchanged (and the attacker is not written at all). -/
theorem executeAttack_spec (attacker defender : Pokemon)
    (isPlayerAttack : Bool) (randomFactor : ℚ) (isCritical : Bool) :
    (executeAttack attacker defender isPlayerAttack randomFactor isCritical).1.hp =
      max 0 (defender.hp -
        (calculateDamage attacker defender randomFactor isCritical).damage) ∧
    0 ≤ (executeAttack attacker defender isPlayerAttack randomFactor isCritical).1.hp ∧
    ((executeAttack attacker defender isPlayerAttack randomFactor
        isCritical).2.defenderFainted = true ↔
      (executeAttack attacker defender isPlayerAttack randomFactor
        isCritical).1.hp = 0) ∧
    (executeAttack attacker defender isPlayerAttack randomFactor
      isCritical).1.name = defender.name ∧
    (executeAttack attacker defender isPlayerAttack randomFactor
      isCritical).1.maxHp = defender.maxHp ∧
    (executeAttack attacker defender isPlayerAttack randomFactor
      isCritical).1.attack = defender.attack ∧
    (executeAttack attacker defender isPlayerAttack randomFactor
      isCritical).1.strength = defender.strength ∧
    (executeAttack attacker defender isPlayerAttack randomFactor
      isCritical).1.types = defender.types := by
  simp only [executeAttack]
  refine ⟨by trivial, le_max_left 0 _, ?_, by trivial, by trivial, by trivial,
    by trivial, by trivial⟩
  simp only [decide_eq_true_eq]
  omega

/-- C7: `determineTurnOrder` compares the two jittered speeds
`(strength || 50) + r` and returns true exactly when the first is at
least the second; in particular a tie goes to the first combatant. -/
theorem determineTurnOrder_spec (pokemon1 pokemon2 : Pokemon) (r1 r2 : ℚ) :
    (determineTurnOrder pokemon1 pokemon2 r1 r2 = true ↔
      speed pokemon2 r2 ≤ speed pokemon1 r1) ∧
    (speed pokemon1 r1 = speed pokemon2 r2 →
      determineTurnOrder pokemon1 pokemon2 r1 r2 = true) := by
  constructor
  · simp [determineTurnOrder]
  · intro h
    simp [determineTurnOrder, h]

/-- Witness for C7: the tie case at equal default strengths and equal
jitters is decided in favor of the first combatant. -/
theorem determineTurnOrder_spec_witness :
    determineTurnOrder ⟨"A", 10, 10, none, none, none⟩
      ⟨"B", 20, 20, none, none, none⟩ 5 5 = true :=
  (determineTurnOrder_spec ⟨"A", 10, 10, none, none, none⟩
    ⟨"B", 20, 20, none, none, none⟩ 5 5).2 rfl

/-- C8: for every strengthScore in [1, 100] the strength multiplier
`0.8 + (strengthScore / 100) * 0.7` lies in [0.8, 1.5], with value 1.15 at
the default 50; and `calculateDamage` with attackStat 100, strengthScore
50, type multiplier 1, random factor 1 and no critical hit yields exactly
`round(100 * 0.4 * 1.15 * 1 * 1) = 46`. -/
theorem strengthMultiplier_range_and_damage46 :
    (∀ s : ℤ, 1 ≤ s → s ≤ 100 →
      (8 / 10 : ℚ) ≤ strengthMultiplier s ∧ strengthMultiplier s ≤ 15 / 10) ∧
    strengthMultiplier 50 = 115 / 100 ∧
    (calculateDamage ⟨"A", 100, 100, some 100, some 50, some ["normal"]⟩
      ⟨"D", 100, 100, none, none, some ["normal"]⟩ 1 false).damage = 46 := by
  refine ⟨?_, ?_, ?_⟩
  · intro s h1 h100
    have hc1 : (1 : ℚ) ≤ (s : ℚ) := by exact_mod_cast h1
    have hc100 : (s : ℚ) ≤ 100 := by exact_mod_cast h100
    have hval : strengthMultiplier s = 8 / 10 + (s : ℚ) * 7 / 1000 := by
      unfold strengthMultiplier; ring
    constructor <;> rw [hval] <;> linarith
  · unfold strengthMultiplier; norm_num
  · simp [calculateDamage, getTypeEffectiveness, effRow, TYPE_EFFECTIVENESS,
      List.lookup, jsOr, jround, strengthMultiplier]
    norm_num [Int.floor_eq_iff]

/-- Witness for C8: the range bounds instantiated at the default
strengthScore 50. -/
theorem strengthMultiplier_range_and_damage46_witness :
    (8 / 10 : ℚ) ≤ strengthMultiplier 50 ∧ strengthMultiplier 50 ≤ 15 / 10 :=
  strengthMultiplier_range_and_damage46.1 50 (by decide) (by decide)

/-- C10: a present-but-zero `attack` or `strength` stat is treated by
`calculateDamage` and `determineTurnOrder` exactly like an absent one
(JavaScript falsy defaulting to 50). -/
theorem falsy_zero_stat_defaults (p q : Pokemon) (randomFactor : ℚ)
    (isCritical : Bool) (r1 r2 : ℚ) :
    calculateDamage { p with attack := some 0 } q randomFactor isCritical =
      calculateDamage { p with attack := none } q randomFactor isCritical ∧
    calculateDamage { p with strength := some 0 } q randomFactor isCritical =
      calculateDamage { p with strength := none } q randomFactor isCritical ∧
    determineTurnOrder { p with strength := some 0 } q r1 r2 =
      determineTurnOrder { p with strength := none } q r1 r2 ∧
    determineTurnOrder q { p with strength := some 0 } r1 r2 =
      determineTurnOrder q { p with strength := none } r1 r2 :=
  ⟨rfl, rfl, rfl, rfl⟩

/-- C6: when no combatant of the 3-member party has health > 0,
`handlePokemonFainted` resets the win counter to 0 and the round counter
to 1 and signals total defeat. -/
theorem handlePokemonFainted_total_defeat (st : GameState)
    (_hlen : st.playerTeam.length = 3)
    (hdead : ∀ q ∈ st.playerTeam, q.hp ≤ 0) :
    handlePokemonFainted st = ({ st with wins := 0, round := 1 }, true) := by
  have hnone : st.playerTeam.findIdx? (fun p => decide (0 < p.hp)) = none := by
    rw [List.findIdx?_eq_none_iff]
    intro x hx
    simpa using hdead x hx
  simp [handlePokemonFainted, hnone]

/-- Witness for C6: a concrete state with all three party members at 0
health resets the counters and signals defeat. -/
theorem handlePokemonFainted_total_defeat_witness :
    handlePokemonFainted
      ⟨7, 4, false, false,
        [⟨"a", 0, 100, none, none, none⟩, ⟨"b", 0, 100, none, none, none⟩,
          ⟨"c", 0, 100, none, none, none⟩], 0,
        ⟨"e", 50, 100, none, none, none⟩⟩ =
      (⟨1, 0, false, false,
        [⟨"a", 0, 100, none, none, none⟩, ⟨"b", 0, 100, none, none, none⟩,
          ⟨"c", 0, 100, none, none, none⟩], 0,
        ⟨"e", 50, 100, none, none, none⟩⟩, true) :=
  handlePokemonFainted_total_defeat
    ⟨7, 4, false, false,
      [⟨"a", 0, 100, none, none, none⟩, ⟨"b", 0, 100, none, none, none⟩,
        ⟨"c", 0, 100, none, none, none⟩], 0,
      ⟨"e", 50, 100, none, none, none⟩⟩ (by decide) (by decide)

/-- C9: while `isBattling` is set, an attack command is ignored with no
state change and no sequence start, and a switch command leaves the state
(in particular the active index) unchanged. -/
theorem busy_commands_rejected (st : GameState) (slot : ℕ)
    (hbusy : st.isBattling = true) :
    handleAttack st = (st, AttackAction.ignored) ∧
    handlePokemonSelect st slot = st := by
  constructor
  · simp [handleAttack, hbusy]
  · simp [handlePokemonSelect, hbusy]

/-- Witness for C9: a concrete busy state ignores the attack command and
a switch to slot 1. -/
theorem busy_commands_rejected_witness :
    handleAttack
      ⟨1, 0, false, true, [⟨"a", 10, 100, none, none, none⟩,
        ⟨"b", 10, 100, none, none, none⟩, ⟨"c", 10, 100, none, none, none⟩],
        0, ⟨"e", 50, 100, none, none, none⟩⟩ =
      (⟨1, 0, false, true, [⟨"a", 10, 100, none, none, none⟩,
        ⟨"b", 10, 100, none, none, none⟩, ⟨"c", 10, 100, none, none, none⟩],
        0, ⟨"e", 50, 100, none, none, none⟩⟩, AttackAction.ignored) ∧
    handlePokemonSelect
      ⟨1, 0, false, true, [⟨"a", 10, 100, none, none, none⟩,
        ⟨"b", 10, 100, none, none, none⟩, ⟨"c", 10, 100, none, none, none⟩],
        0, ⟨"e", 50, 100, none, none, none⟩⟩ 1 =
      ⟨1, 0, false, true, [⟨"a", 10, 100, none, none, none⟩,
        ⟨"b", 10, 100, none, none, none⟩, ⟨"c", 10, 100, none, none, none⟩],
        0, ⟨"e", 50, 100, none, none, none⟩⟩ :=
  busy_commands_rejected
    ⟨1, 0, false, true, [⟨"a", 10, 100, none, none, none⟩,
      ⟨"b", 10, 100, none, none, none⟩, ⟨"c", 10, 100, none, none, none⟩],
      0, ⟨"e", 50, 100, none, none, none⟩⟩ 1 rfl

/-- The round loop never executes more than `fuel` further rounds beyond
the `turnCount` it starts from. -/
lemma battleLoop_rounds_le (rng : ℕ → RoundRand) :
    ∀ (fuel : ℕ) (p e : Pokemon) (t : ℕ),
      (battleLoop rng fuel p e t).rounds ≤ t + fuel := by
  intro fuel
  induction fuel with
  | zero =>
    intro p e t
    simp [battleLoop]
  | succ n ih =>
    intro p e t
    simp only [battleLoop]
    split
    · split
      · split
        · simp
        · exact le_trans (ih _ _ (t + 1)) (by omega)
      · split
        · simp
        · exact le_trans (ih _ _ (t + 1)) (by omega)
    · exact Nat.le_add_right t (n + 1)

/-- One round of the loop in which the first-acting side deals at least
the other side's remaining health: the loop stops right after that first
attack, with the second attack of the round never executed. -/
lemma battleLoop_first_kill_step (rng : ℕ → RoundRand) (fuel t : ℕ)
    (p e : Pokemon) (hp0 : 0 < p.hp) (he0 : 0 < e.hp) :
    (determineTurnOrder p e (rng t).orderR1 (rng t).orderR2 = true →
      e.hp ≤ (calculateDamage p e (rng t).firstRand (rng t).firstCrit).damage →
      battleLoop rng (fuel + 1) p e t = ⟨p, { e with hp := 0 }, t + 1⟩) ∧
    (determineTurnOrder p e (rng t).orderR1 (rng t).orderR2 = false →
      p.hp ≤ (calculateDamage e p (rng t).firstRand (rng t).firstCrit).damage →
      battleLoop rng (fuel + 1) p e t = ⟨{ p with hp := 0 }, e, t + 1⟩) := by
  constructor
  · intro hfirst hkill
    have hmax : max 0 (e.hp -
        (calculateDamage p e (rng t).firstRand (rng t).firstCrit).damage) = 0 := by
      omega
    simp only [battleLoop, executeAttack]
    rw [if_pos ⟨hp0, he0⟩]
    simp [hfirst, hmax]
  · intro hfirst hkill
    have hmax : max 0 (p.hp -
        (calculateDamage e p (rng t).firstRand (rng t).firstCrit).damage) = 0 := by
      omega
    simp only [battleLoop, executeAttack]
    rw [if_pos ⟨hp0, he0⟩]
    simp [hfirst, hmax]

/-- C1: the battle sequence executes at most `MAX_ROUNDS = 50` rounds,
and its outcome is the distinct stalemate value exactly when it stops
with both combatants still alive (the case where neither the win handler
nor the faint handler runs). -/
theorem runBattleSequence_round_cap (p e : Pokemon) (rng : ℕ → RoundRand) :
    (runBattleSequence p e rng).rounds ≤ MAX_ROUNDS ∧
    ((runBattleSequence p e rng).outcome = BattleOutcome.stalemate ↔
      0 < (runBattleSequence p e rng).player.hp ∧
        0 < (runBattleSequence p e rng).enemy.hp) := by
  have hle := battleLoop_rounds_le rng MAX_ROUNDS p e 0
  simp only [runBattleSequence]
  constructor
  · simpa using hle
  · split_ifs with h1 h2
    · constructor
      · intro h
        exact absurd h (by simp)
      · intro h
        omega
    · constructor
      · intro h
        exact absurd h (by simp)
      · intro h
        omega
    · constructor
      · intro _
        omega
      · intro _
        rfl

/-- C5: if the side acting first in the opening round deals at least the
other side's remaining health, the sequence ends after exactly one round
with the corresponding outcome and the second attack of that round never
runs (the first-acting side's own record is returned untouched). -/
theorem runBattleSequence_one_round_kill (p e : Pokemon) (rng : ℕ → RoundRand)
    (hp0 : 0 < p.hp) (he0 : 0 < e.hp) :
    (determineTurnOrder p e (rng 0).orderR1 (rng 0).orderR2 = true →
      e.hp ≤ (calculateDamage p e (rng 0).firstRand (rng 0).firstCrit).damage →
      runBattleSequence p e rng = ⟨p, { e with hp := 0 }, 1, BattleOutcome.won⟩) ∧
    (determineTurnOrder p e (rng 0).orderR1 (rng 0).orderR2 = false →
      p.hp ≤ (calculateDamage e p (rng 0).firstRand (rng 0).firstCrit).damage →
      runBattleSequence p e rng =
        ⟨{ p with hp := 0 }, e, 1, BattleOutcome.activeDefeated⟩) := by
  constructor
  · intro hfirst hkill
    have hstep := (battleLoop_first_kill_step rng 49 0 p e hp0 he0).1 hfirst hkill
    simp only [runBattleSequence, show MAX_ROUNDS = 49 + 1 from rfl, hstep]
    simp
  · intro hfirst hkill
    have hstep := (battleLoop_first_kill_step rng 49 0 p e hp0 he0).2 hfirst hkill
    simp only [runBattleSequence, show MAX_ROUNDS = 49 + 1 from rfl, hstep]
    rw [if_neg (by omega)]
    simp

/-- Witness for C5: a one-hit-kill attacker against a defender at 1
health ends the sequence in exactly one round, winning, with the
attacker's record untouched. -/
theorem runBattleSequence_one_round_kill_witness :
    runBattleSequence ⟨"A", 100, 100, none, none, none⟩
      ⟨"B", 1, 100, none, none, none⟩
      (fun _ => ⟨20, 0, 1, false, 1, false⟩) =
      ⟨⟨"A", 100, 100, none, none, none⟩, ⟨"B", 0, 100, none, none, none⟩, 1,
        BattleOutcome.won⟩ :=
  (runBattleSequence_one_round_kill ⟨"A", 100, 100, none, none, none⟩
    ⟨"B", 1, 100, none, none, none⟩ (fun _ => ⟨20, 0, 1, false, 1, false⟩)
    (by decide) (by decide)).1
    (by simp [determineTurnOrder, speed, jsOr])
    (by simp [calculateDamage, getTypeEffectiveness, effRow, TYPE_EFFECTIVENESS,
      List.lookup, jsOr, jround, strengthMultiplier])

end Stresst
